import Mathlib

/-!
Shallow embedding of `src/librbd/AioRequest.cc` (librbd per-object AIO
state machine).  Pure functions model each member function; external
collaborators (`ImageCtx`, striper, object map, parent-overlap lookup)
are abstracted as function-valued fields of an `ImageCtx` record, and
side effects (issued reads/writes, completion invocations, copyup-list
mutations) are returned explicitly in result records.
-/

/-- Error code: `ENOENT` is 2, so `-ENOENT` is `-2`. -/
def ENOENT : Int := 2

/-- Value of `CEPH_NOSNAP` (`(uint64_t)(-2)`), the HEAD snapshot id. -/
def CEPH_NOSNAP : Nat := 18446744073709551614

/-- An extent: (offset, length) pair, as used in `vector<pair<uint64_t,uint64_t>>`. -/
abbrev Extent := Nat × Nat

/-- Object-map cell state `OBJECT_NONEXISTENT`. -/
def OBJECT_NONEXISTENT : Nat := 0

/-- Object-map cell state `OBJECT_EXISTS`. -/
def OBJECT_EXISTS : Nat := 1

/-- Object-map cell state `OBJECT_PENDING`. -/
def OBJECT_PENDING : Nat := 2

/-- Abstraction of the parts of `librbd::ImageCtx` (and the external
collaborators reached through it) that `AioRequest.cc` consults.  Each
field models one external call; the bodies of those calls live outside
this translation unit. -/
structure ImageCtx where
  /-- `m_ictx->parent != NULL`: whether a parent image is attached. -/
  parent : Bool
  /-- `ictx->clone_copy_on_read`. -/
  clone_copy_on_read : Bool
  /-- `ictx->read_only`. -/
  read_only : Bool
  /-- `ictx->get_parent_overlap(snap_id, &overlap)`: returns the int
  result code and the overlap written through the out-parameter. -/
  get_parent_overlap : Nat → Int × Nat
  /-- `ictx->prune_parent_extents(extents, overlap)`: returns the pruned
  extent vector (mutated in place in C++) and the remaining object
  overlap (the function's return value). -/
  prune_parent_extents : List Extent → Nat → List Extent × Nat
  /-- `Striper::extent_to_file(cct, &layout, object_no, off, len, out)`:
  maps an intra-object extent to image-space extents. -/
  extent_to_file : Nat → Nat → Nat → List Extent
  /-- `ictx->layout.fl_object_size`. -/
  object_size : Nat
  /-- `ictx->object_map.enabled()`. -/
  object_map_enabled : Bool
  /-- `ictx->object_map.object_may_exist(object_no)`. -/
  object_may_exist : Nat → Bool
  /-- `ictx->object_map[object_no]`: the current cell state. -/
  object_map : Nat → Nat
  /-- `ictx->get_read_flags(snap_id)`. -/
  get_read_flags : Nat → Nat
  /-- Result code returned by `data_ctx.aio_operate` for the read issued
  by `AioRead::send` (external to this translation unit). -/
  aio_operate_r : Int

/-- Events observable from `AioRequest::complete`: invoking the user
completion with a result, and destroying the request (`delete this`). -/
inductive CompletionEvent where
  | fire (r : Int)
  | destroy
deriving DecidableEq, Repr

/-- `AioRequest::complete(r)` (AioRequest.cc:51-61): consult the
subclass's `should_complete(r)`; if it returns true, remap `r` to 0 when
`m_hide_enoent && r == -ENOENT`, fire the user completion, and destroy
the request.  Otherwise do nothing. -/
def AioRequest.complete (hide_enoent : Bool) (should_complete : Int → Bool)
    (r : Int) : List CompletionEvent :=
  if should_complete r then
    [CompletionEvent.fire (if hide_enoent = true ∧ r = -ENOENT then 0 else r),
     CompletionEvent.destroy]
  else
    []

/-- `compute_parent_extents()` (AioRequest.cc:63-88), as a pure function
of the stored `m_parent_extents`: on a failed overlap lookup the extents
are cleared and the result is false; otherwise the extents are pruned
against the overlap and the result is `object_overlap > 0`. -/
def computeParentExtents (ictx : ImageCtx) (snap_id : Nat)
    (extents : List Extent) : List Extent × Bool :=
  let ro := ictx.get_parent_overlap snap_id
  if ro.1 < 0 then
    ([], false)
  else
    let po := ictx.prune_parent_extents extents ro.2
    (po.1, decide (0 < po.2))

/-- `is_copy_on_read(ictx, snap_id)` (AioRequest.cc:117-121). -/
def is_copy_on_read (ictx : ImageCtx) (snap_id : Nat) : Bool :=
  ictx.clone_copy_on_read && !ictx.read_only && decide (snap_id = CEPH_NOSNAP)

/-- `m_parent_extents` as computed by the `AioRequest` constructor
(AioRequest.cc:36-41): map the full object address space to image space,
then prune against the current parent overlap. -/
def AioRequest.initParentExtents (ictx : ImageCtx) (object_no snap_id : Nat) :
    List Extent :=
  (computeParentExtents ictx snap_id
    (ictx.extent_to_file object_no 0 ictx.object_size)).1

/-- One in-flight `CopyupRequest` as visible to this translation unit:
its object number, the parent extents it was seeded with, and the ids of
the write requests appended to it via `append_request`. -/
structure CopyupRequest where
  object_no : Nat
  parent_extents : List Extent
  waiters : List Nat
deriving DecidableEq, Repr

/-- `m_ictx->copyup_list.find(object_no)` on the association-list model
of the `map<uint64_t, CopyupRequest*>`. -/
def lookupCopyup : List (Nat × CopyupRequest) → Nat → Option CopyupRequest
  | [], _ => none
  | p :: t, k => if p.1 = k then some p.2 else lookupCopyup t k

/-- States of the `AioRead` state machine. -/
inductive ReadState where
  | READ_GUARD
  | READ_COPYUP
  | READ_FLAT
deriving DecidableEq, Repr

/-- The per-request state of an `AioRead`. -/
structure AioRead where
  object_no : Nat
  object_off : Nat
  object_len : Nat
  snap_id : Nat
  hide_enoent : Bool
  tried_parent : Bool
  sparse : Bool
  op_flags : Nat
  state : ReadState
  parent_extents : List Extent
deriving DecidableEq, Repr

/-- The `AioRead` constructor (AioRequest.cc:125-135): passes
`hide_enoent = false` to the base constructor, starts in `READ_FLAT`,
then `guard_read()` upgrades to `READ_GUARD` when the request has a
parent.  `has_parent()` is declared in AioRequest.h, outside this
translation unit; modelled from the spec ("READ_GUARD (set at
construction iff parent overlap exists)") as the initial parent extents
being non-empty. -/
def AioRead.construct (ictx : ImageCtx) (object_no off len snap_id : Nat)
    (sparse : Bool) (op_flags : Nat) : AioRead :=
  let pe := AioRequest.initParentExtents ictx object_no snap_id
  { object_no := object_no
    object_off := off
    object_len := len
    snap_id := snap_id
    hide_enoent := false
    tried_parent := false
    sparse := sparse
    op_flags := op_flags
    state := if pe = [] then ReadState.READ_FLAT else ReadState.READ_GUARD
    parent_extents := pe }

/-- The reverse mapping and overlap recomputation done by the
`READ_GUARD` branch of `AioRead::should_complete`
(AioRequest.cc:174-184): map the actual request sub-extent to
image space, look up the parent overlap, and prune only when the
lookup returned 0.  Yields the (possibly pruned) extents and the
resulting `object_overlap`. -/
def guardRecompute (ictx : ImageCtx) (req : AioRead) : List Extent × Nat :=
  let pe := ictx.extent_to_file req.object_no req.object_off req.object_len
  let ro := ictx.get_parent_overlap req.snap_id
  if ro.1 = 0 then ictx.prune_parent_extents pe ro.2 else (pe, 0)

/-- Result of the critical section of the `READ_COPYUP` branch
(AioRequest.cc:218-233), executed under `copyup_list_lock`. -/
structure ReadCopyupOut where
  req : AioRead
  copyupList : List (Nat × CopyupRequest)
  started : List CopyupRequest
deriving Repr

/-- The `READ_COPYUP` critical section (AioRequest.cc:220-232): under
`copyup_list_lock`, look up the object number; only if absent, run
`compute_parent_extents()` and, when it reports overlap, insert a fresh
`CopyupRequest` (no waiters) and queue it. -/
def readCopyupSection (ictx : ImageCtx) (req : AioRead)
    (l : List (Nat × CopyupRequest)) : ReadCopyupOut :=
  match lookupCopyup l req.object_no with
  | some _ => { req := req, copyupList := l, started := [] }
  | none =>
    let ce := computeParentExtents ictx req.snap_id req.parent_extents
    let req' := { req with parent_extents := ce.1 }
    if ce.2 then
      let nr : CopyupRequest :=
        { object_no := req.object_no, parent_extents := ce.1, waiters := [] }
      { req := req', copyupList := (req.object_no, nr) :: l, started := [nr] }
    else
      { req := req', copyupList := l, started := [] }

/-- Result of one `AioRead::should_complete(r)` step. -/
structure ReadStepResult where
  req : AioRead
  finished : Bool
  /-- `read_from_parent(extents, block_completion)` issued, if any. -/
  parentRead : Option (List Extent × Bool)
  copyupList : List (Nat × CopyupRequest)
  started : List CopyupRequest
deriving Repr

/-- `AioRead::should_complete(r)` (AioRequest.cc:148-246). -/
def AioRead.should_complete (ictx : ImageCtx) (req : AioRead)
    (l : List (Nat × CopyupRequest)) (r : Int) : ReadStepResult :=
  match req.state with
  | ReadState.READ_GUARD =>
    if req.tried_parent = false ∧ r = -ENOENT then
      if ictx.parent = false then
        { req := { req with state := ReadState.READ_FLAT }, finished := false,
          parentRead := none, copyupList := l, started := [] }
      else
        let g := guardRecompute ictx req
        if 0 < g.2 then
          let st := if is_copy_on_read ictx req.snap_id then
                      ReadState.READ_COPYUP else req.state
          { req := { req with tried_parent := true, state := st },
            finished := false, parentRead := some (g.1, true),
            copyupList := l, started := [] }
        else
          { req := req, finished := true, parentRead := none,
            copyupList := l, started := [] }
    else
      { req := req, finished := true, parentRead := none,
        copyupList := l, started := [] }
  | ReadState.READ_COPYUP =>
    if 0 < r then
      let out := readCopyupSection ictx req l
      { req := out.req, finished := true, parentRead := none,
        copyupList := out.copyupList, started := out.started }
    else
      { req := req, finished := true, parentRead := none,
        copyupList := l, started := [] }
  | ReadState.READ_FLAT =>
    { req := req, finished := true, parentRead := none,
      copyupList := l, started := [] }

/-- Description of the object-store read issued by `AioRead::send`. -/
structure ReadOpDesc where
  sparse : Bool
  off : Nat
  len : Nat
  flags : Nat
  op_flags : Nat
deriving DecidableEq, Repr

/-- Result of `AioRead::send` (AioRequest.cc:248-274). -/
structure ReadSendResult where
  ret : Int
  /-- `complete(r)` invoked synchronously, if any. -/
  completeCalled : Option Int
  readOp : Option ReadOpDesc
deriving DecidableEq, Repr

/-- `AioRead::send()` (AioRequest.cc:248-274): if the object map says
the object cannot exist, call `complete(-ENOENT)` and return 0 without
issuing a read; otherwise issue exactly one read (sparse or dense per
`m_sparse`, with the snapshot read-flags and the op-flags). -/
def AioRead.send (ictx : ImageCtx) (req : AioRead) : ReadSendResult :=
  if ictx.object_may_exist req.object_no = false then
    { ret := 0, completeCalled := some (-ENOENT), readOp := none }
  else
    { ret := ictx.aio_operate_r, completeCalled := none,
      readOp := some { sparse := req.sparse, off := req.object_off,
                       len := req.object_len,
                       flags := ictx.get_read_flags req.snap_id,
                       op_flags := req.op_flags } }

/-- States of the `AbstractWrite` state machine. -/
inductive WriteState where
  | WRITE_FLAT
  | WRITE_GUARD
  | WRITE_PRE
  | WRITE_POST
  | WRITE_COPYUP
  | WRITE_ERROR
deriving DecidableEq, Repr

/-- The per-request state of an `AbstractWrite`.  `id` identifies the
request in `CopyupRequest` waiter lists; `entire_object` records whether
`m_entire_object` points at a shared copyup buffer. -/
structure AbstractWrite where
  id : Nat
  object_no : Nat
  object_off : Nat
  object_len : Nat
  snap_id : Nat
  snap_seq : Nat
  snaps : List Nat
  hide_enoent : Bool
  state : WriteState
  parent_extents : List Extent
  read_data : List Nat
  entire_object : Bool
deriving DecidableEq, Repr

/-- One step of an object-store operation, as assembled into a
`librados::ObjectWriteOperation` by `send_copyup` / `add_write_ops`. -/
inductive OpStep where
  | exec (cls method : String) (data : List Nat)
  | assertExists
  | setAllocHint (expected_size expected_write_size : Nat)
  | write (off : Nat) (data : List Nat)
  | zero (off len : Nat)
  | setOpFlags (flags : Nat)
deriving DecidableEq, Repr

/-- Whether an op step is an `exec` call. -/
def OpStep.isExec : OpStep → Bool
  | OpStep.exec _ _ _ => true
  | _ => false

/-- Which rados pool an operation is issued against: `data_ctx` or
`md_ctx`. -/
inductive IoCtxPool where
  | dataPool
  | metadataPool
deriving DecidableEq, Repr

/-- An object-store write operation as issued by `aio_operate`. -/
structure IssuedOp where
  pool : IoCtxPool
  steps : List OpStep
  snap_seq : Nat
  snaps : List Nat
deriving DecidableEq, Repr

/-- `bufferlist::is_zero()` (external, common/buffer): true iff every
byte is zero; vacuously true for an empty buffer. -/
def bufferIsZero (b : List Nat) : Bool :=
  b.all (fun x => x = 0)

/-- `AbstractWrite::send_copyup()` (AioRequest.cc:514-529): build one
operation; if `m_read_data` is not all-zero, start it with
`exec("rbd", "copyup", m_read_data)`; append the subclass's write ops
(`add_write_ops`, a virtual hook, passed as `writeOps`); issue against
`md_ctx` with the write's snapshot context. -/
def AbstractWrite.send_copyup (w : AbstractWrite) (writeOps : List OpStep) :
    IssuedOp :=
  { pool := IoCtxPool.metadataPool
    steps := (if bufferIsZero w.read_data = false then
                [OpStep.exec "rbd" "copyup" w.read_data] else []) ++ writeOps
    snap_seq := w.snap_seq
    snaps := w.snaps }

/-- An object-map update issued via `object_map.aio_update(object_no,
new_state, current_state, ctx)`; `current_state = none` means the
boost::optional was left unset (unconstrained). -/
structure MapUpdate where
  object_no : Nat
  new_state : Nat
  current_state : Option Nat
deriving DecidableEq, Repr

/-- Result of `send_pre` / `send_post`: the returned bool, the request
state after the call, and the async update issued (if any). -/
structure PrePostResult where
  ret : Bool
  state : WriteState
  update : Option MapUpdate
deriving DecidableEq, Repr

/-- `AbstractWrite::send_pre()` (AioRequest.cc:435-465): return true
when the object map is disabled; otherwise set state `WRITE_PRE`,
compute `new_state` via the `pre_object_map_update` hook (passed as a
parameter), return true when the current cell already equals it, and
otherwise issue one `aio_update(object_no, new_state, unconstrained)`
and return false. -/
def AbstractWrite.send_pre (ictx : ImageCtx) (w : AbstractWrite)
    (new_state : Nat) : PrePostResult :=
  if ictx.object_map_enabled = false then
    { ret := true, state := w.state, update := none }
  else
    if ictx.object_map w.object_no = new_state then
      { ret := true, state := WriteState.WRITE_PRE, update := none }
    else
      { ret := false, state := WriteState.WRITE_PRE,
        update := some { object_no := w.object_no, new_state := new_state,
                         current_state := none } }

/-- `AbstractWrite::send_post()` (AioRequest.cc:467-495): return true
when the object map is disabled or `post_object_map_update()` (virtual
hook, passed as `post_hook`) is false; otherwise set state `WRITE_POST`,
read the current cell, return true when
`current_state != OBJECT_PENDING || current_state == OBJECT_NONEXISTENT`,
and otherwise issue one `aio_update(object_no, OBJECT_NONEXISTENT,
OBJECT_PENDING)` and return false. -/
def AbstractWrite.send_post (ictx : ImageCtx) (w : AbstractWrite)
    (post_hook : Bool) : PrePostResult :=
  if ictx.object_map_enabled = false ∨ post_hook = false then
    { ret := true, state := w.state, update := none }
  else
    let current := ictx.object_map w.object_no
    if ¬ current = OBJECT_PENDING ∨ current = OBJECT_NONEXISTENT then
      { ret := true, state := WriteState.WRITE_POST, update := none }
    else
      { ret := false, state := WriteState.WRITE_POST,
        update := some { object_no := w.object_no,
                         new_state := OBJECT_NONEXISTENT,
                         current_state := some OBJECT_PENDING } }

/-- Result of the copy-on-read critical section of the `WRITE_GUARD`
branch (AioRequest.cc:335-353), executed under `copyup_list_lock`:
the updated copyup list, the requests started by `send()` after the
unlock, and whether a new entry was inserted. -/
structure WriteCopyupOut where
  copyupList : List (Nat × CopyupRequest)
  started : List CopyupRequest
  inserted : Bool
deriving Repr

/-- The `WRITE_GUARD` copy-on-read critical section
(AioRequest.cc:335-353): under `copyup_list_lock`, look up the object
number; if absent, create a `CopyupRequest` seeded with the pruned
parent extents, append this write as its waiter, insert it, and (after
unlocking) send it; if present, append this write to the existing
entry's waiters. -/
def writeCopyupSection (wid object_no : Nat) (pruned : List Extent)
    (l : List (Nat × CopyupRequest)) : WriteCopyupOut :=
  match lookupCopyup l object_no with
  | none =>
    let nr : CopyupRequest :=
      { object_no := object_no, parent_extents := pruned, waiters := [wid] }
    { copyupList := (object_no, nr) :: l, started := [nr], inserted := true }
  | some _ =>
    { copyupList :=
        l.map (fun p =>
          if p.1 = object_no then
            (p.1, { p.2 with waiters := p.2.waiters ++ [wid] })
          else p)
      started := [], inserted := false }

/-- Result of one `AbstractWrite::should_complete(r)` step. -/
structure WriteStepResult where
  req : AbstractWrite
  finished : Bool
  copyupList : List (Nat × CopyupRequest)
  started : List CopyupRequest
  /-- `send_copyup()` call, recorded as the operation it issues. -/
  copyupOp : Option IssuedOp
  /-- `read_from_parent(extents, block_completion)` issued, if any. -/
  parentRead : Option (List Extent × Bool)
  /-- whether `send_write()` was invoked. -/
  sendWrite : Bool
  /-- re-entrant `complete(r)` call, if any (WRITE_ERROR path). -/
  completeCalled : Option Int
  /-- object-map update issued by `send_post`, if any. -/
  postUpdate : Option MapUpdate
deriving Repr

/-- A `WriteStepResult` with no effects, keeping the request and copyup
list unchanged. -/
def writeStepNoEffect (w : AbstractWrite) (l : List (Nat × CopyupRequest))
    (finished : Bool) : WriteStepResult :=
  { req := w, finished := finished, copyupList := l, started := [],
    copyupOp := none, parentRead := none, sendWrite := false,
    completeCalled := none, postUpdate := none }

/-- The `LIBRBD_AIO_WRITE_GUARD` branch of
`AbstractWrite::should_complete` (AioRequest.cc:323-382).  `writeOps`
stands for the subclass's `add_write_ops`, `post_hook` for
`post_object_map_update()`. -/
def writeGuardBranch (ictx : ImageCtx) (w : AbstractWrite)
    (l : List (Nat × CopyupRequest)) (writeOps : List OpStep)
    (post_hook : Bool) (r : Int) : WriteStepResult :=
  if r = -ENOENT then
    let ce := computeParentExtents ictx w.snap_id w.parent_extents
    let w1 := { w with parent_extents := ce.1 }
    if ce.2 then
      let w2 := { w1 with state := WriteState.WRITE_COPYUP }
      if is_copy_on_read ictx CEPH_NOSNAP then
        let out := writeCopyupSection w.id w.object_no ce.1 l
        { req := { w2 with entire_object := true }, finished := false,
          copyupList := out.copyupList, started := out.started,
          copyupOp := none, parentRead := none, sendWrite := false,
          completeCalled := none, postUpdate := none }
      else
        { req := w2, finished := false, copyupList := l, started := [],
          copyupOp := none, parentRead := some (ce.1, false),
          sendWrite := false, completeCalled := none, postUpdate := none }
    else
      let w2 := { w1 with state := WriteState.WRITE_FLAT }
      { req := w2, finished := false, copyupList := l, started := [],
        copyupOp := some (AbstractWrite.send_copyup w2 writeOps),
        parentRead := none, sendWrite := false, completeCalled := none,
        postUpdate := none }
  else if r < 0 then
    { req := { w with state := WriteState.WRITE_ERROR }, finished := false,
      copyupList := l, started := [], copyupOp := none, parentRead := none,
      sendWrite := false, completeCalled := some r, postUpdate := none }
  else
    let p := AbstractWrite.send_post ictx w post_hook
    { req := { w with state := p.state }, finished := p.ret,
      copyupList := l, started := [], copyupOp := none, parentRead := none,
      sendWrite := false, completeCalled := none, postUpdate := p.update }

/-- `AbstractWrite::should_complete(r)` (AioRequest.cc:299-420).
`shared` is the contents of the shared copyup buffer that
`m_entire_object` points at (dereferenced in the `WRITE_COPYUP`
branch). -/
def AbstractWrite.should_complete (ictx : ImageCtx) (w : AbstractWrite)
    (l : List (Nat × CopyupRequest)) (writeOps : List OpStep)
    (post_hook : Bool) (shared : List Nat) (r : Int) : WriteStepResult :=
  match w.state with
  | WriteState.WRITE_PRE =>
    if r < 0 then
      writeStepNoEffect w l true
    else
      { writeStepNoEffect w l false with sendWrite := true }
  | WriteState.WRITE_POST =>
    writeStepNoEffect w l true
  | WriteState.WRITE_GUARD =>
    writeGuardBranch ictx w l writeOps post_hook r
  | WriteState.WRITE_COPYUP =>
    let w1 := { w with state := WriteState.WRITE_GUARD }
    if r < 0 then
      writeGuardBranch ictx w1 l writeOps post_hook r
    else
      let w2 := if w.entire_object then
                  { w1 with read_data := w1.read_data ++ shared }
                else w1
      { writeStepNoEffect w2 l false with
          copyupOp := some (AbstractWrite.send_copyup w2 writeOps) }
  | WriteState.WRITE_FLAT =>
    let p := AbstractWrite.send_post ictx w post_hook
    { writeStepNoEffect { w with state := p.state } l p.ret with
        postUpdate := p.update }
  | WriteState.WRITE_ERROR =>
    writeStepNoEffect w l true

/-- A concrete image context for instantiating the theorems: parent
attached, copy-on-read enabled, 4096-byte objects, one-extent striping,
full parent overlap, object map enabled with every cell `PENDING`. -/
def ctxA : ImageCtx :=
  { parent := true
    clone_copy_on_read := true
    read_only := false
    get_parent_overlap := fun _ => (0, 4096)
    prune_parent_extents := fun es ov => (es, ov)
    extent_to_file := fun _ off len => [(off, len)]
    object_size := 4096
    object_map_enabled := true
    object_may_exist := fun n => decide (n = 0)
    object_map := fun _ => OBJECT_PENDING
    get_read_flags := fun _ => 0
    aio_operate_r := 0 }

/-- Like `ctxA` but with no parent attached. -/
def ctxB : ImageCtx := { ctxA with parent := false }

/-- Like `ctxA` but the parent overlap has shrunk to zero. -/
def ctxC : ImageCtx := { ctxA with get_parent_overlap := fun _ => (0, 0) }

/-- A concrete guarded read of the head revision of object 0. -/
def reqA : AioRead :=
  { object_no := 0
    object_off := 0
    object_len := 4096
    snap_id := CEPH_NOSNAP
    hide_enoent := false
    tried_parent := false
    sparse := false
    op_flags := 0
    state := ReadState.READ_GUARD
    parent_extents := [(0, 4096)] }

/-- Like `reqA` but targeting object 1 (whose map cell says it cannot
exist under `ctxA`). -/
def reqB : AioRead := { reqA with object_no := 1 }

/-- A concrete guarded write to object 0 with `hide_enoent` set. -/
def wA : AbstractWrite :=
  { id := 1
    object_no := 0
    object_off := 0
    object_len := 4096
    snap_id := CEPH_NOSNAP
    snap_seq := 5
    snaps := [4, 3]
    hide_enoent := true
    state := WriteState.WRITE_GUARD
    parent_extents := [(0, 4096)]
    read_data := []
    entire_object := false }

/-- Claim C1: when `should_complete(r)` returns true, the user
completion fires exactly once — with `r` remapped to 0 exactly when
`hide_enoent` is set and `r = -ENOENT` — and the request is destroyed
after that single invocation; when it returns false, nothing fires and
nothing is destroyed. -/
theorem complete_fires_once_and_destroys (hide_enoent : Bool)
    (should_complete : Int → Bool) (r : Int) :
    (should_complete r = true →
      AioRequest.complete hide_enoent should_complete r =
        [CompletionEvent.fire
           (if hide_enoent = true ∧ r = -ENOENT then 0 else r),
         CompletionEvent.destroy]) ∧
    (should_complete r = false →
      AioRequest.complete hide_enoent should_complete r = []) := by
  constructor
  · intro h
    simp [AioRequest.complete, h]
  · intro h
    simp [AioRequest.complete, h]

/-- Witness for C1 at a concrete input: a hide_enoent request whose
`should_complete` accepts `-ENOENT` fires once with 0 and is then
destroyed. -/
theorem complete_fires_once_and_destroys_witness :
    AioRequest.complete true (fun _ => true) (-ENOENT) =
      [CompletionEvent.fire 0, CompletionEvent.destroy] := by
  have h := (complete_fires_once_and_destroys true (fun _ => true) (-ENOENT)).1 rfl
  simpa using h

/-- Claim C10: the `AioRead` constructor fixes `hide_enoent` to false,
so a terminal result — `-ENOENT` included — is always delivered to the
user completion unchanged, never remapped to 0. -/
theorem aio_read_hide_enoent_false (ictx : ImageCtx)
    (object_no off len snap_id : Nat) (sparse : Bool) (op_flags : Nat) :
    (AioRead.construct ictx object_no off len snap_id sparse
        op_flags).hide_enoent = false ∧
    (∀ sc : Int → Bool, ∀ r : Int, sc r = true →
      AioRequest.complete
        (AioRead.construct ictx object_no off len snap_id sparse
          op_flags).hide_enoent sc r =
        [CompletionEvent.fire r, CompletionEvent.destroy]) := by
  refine ⟨rfl, ?_⟩
  intro sc r h
  simp [AioRead.construct, AioRequest.complete, h]

/-- Witness for C10: a concrete constructed read delivers a terminal
`-ENOENT` unchanged. -/
theorem aio_read_hide_enoent_false_witness :
    AioRequest.complete
      (AioRead.construct ctxA 0 0 4096 CEPH_NOSNAP false 0).hide_enoent
      (fun _ => true) (-ENOENT) =
      [CompletionEvent.fire (-ENOENT), CompletionEvent.destroy] :=
  (aio_read_hide_enoent_false ctxA 0 0 4096 CEPH_NOSNAP false 0).2
    (fun _ => true) (-ENOENT) rfl

/-- Claim C9: `AioRead::send` short-circuits through `complete(-ENOENT)`
and returns 0 without issuing any object-store read when the object map
says the object cannot exist; otherwise it issues exactly one read —
sparse or dense per the sparse flag, with the snapshot read-flags and
the op-flags — and does not complete synchronously. -/
theorem aio_read_send_short_circuit (ictx : ImageCtx) (req : AioRead) :
    (ictx.object_may_exist req.object_no = false →
      AioRead.send ictx req =
        { ret := 0, completeCalled := some (-ENOENT), readOp := none }) ∧
    (ictx.object_may_exist req.object_no = true →
      (AioRead.send ictx req).completeCalled = none ∧
      (AioRead.send ictx req).readOp =
        some { sparse := req.sparse, off := req.object_off,
               len := req.object_len,
               flags := ictx.get_read_flags req.snap_id,
               op_flags := req.op_flags }) := by
  constructor
  · intro h
    simp [AioRead.send, h]
  · intro h
    simp [AioRead.send, h]

/-- Witness for C9: under `ctxA` object 1 cannot exist, so its read
short-circuits with `-ENOENT` and no read op. -/
theorem aio_read_send_short_circuit_witness :
    AioRead.send ctxA reqB =
      { ret := 0, completeCalled := some (-ENOENT), readOp := none } :=
  (aio_read_send_short_circuit ctxA reqB).1 (by decide)

/-- Claim C5: `send_pre` returns true with no object-map update when the
map is disabled or when the cell for the object already equals the new
state computed by `pre_object_map_update`; otherwise it issues exactly
one async `aio_update(object_no, new_state, unconstrained)`, sets state
`WRITE_PRE`, and returns false. -/
theorem send_pre_behaviour (ictx : ImageCtx) (w : AbstractWrite)
    (new_state : Nat) :
    (ictx.object_map_enabled = false →
      AbstractWrite.send_pre ictx w new_state =
        { ret := true, state := w.state, update := none }) ∧
    (ictx.object_map_enabled = true →
      ictx.object_map w.object_no = new_state →
      (AbstractWrite.send_pre ictx w new_state).ret = true ∧
      (AbstractWrite.send_pre ictx w new_state).update = none) ∧
    (ictx.object_map_enabled = true →
      ¬ ictx.object_map w.object_no = new_state →
      AbstractWrite.send_pre ictx w new_state =
        { ret := false, state := WriteState.WRITE_PRE,
          update := some { object_no := w.object_no,
                           new_state := new_state,
                           current_state := none } }) := by
  refine ⟨?_, ?_, ?_⟩
  · intro h
    simp [AbstractWrite.send_pre, h]
  · intro h he
    simp [AbstractWrite.send_pre, h, he]
  · intro h hne
    simp [AbstractWrite.send_pre, h, hne]

/-- Witness for C5: under `ctxA` the cell holds `PENDING` (2), so a pre
transition to `EXISTS` (1) issues one unconstrained update and returns
false in state `WRITE_PRE`. -/
theorem send_pre_behaviour_witness :
    AbstractWrite.send_pre ctxA wA OBJECT_EXISTS =
      { ret := false, state := WriteState.WRITE_PRE,
        update := some { object_no := 0, new_state := OBJECT_EXISTS,
                         current_state := none } } :=
  (send_pre_behaviour ctxA wA OBJECT_EXISTS).2.2 rfl (by decide)

/-- Claim C6: `send_post` issues the `PENDING → NONEXISTENT` object-map
update exactly when the map is enabled, the `post_object_map_update`
hook requests a post transition, and the current cell is `PENDING`; in
exactly that case it sets state `WRITE_POST` and returns false, and in
every other case it returns true with no update I/O. -/
theorem send_post_behaviour (ictx : ImageCtx) (w : AbstractWrite)
    (post_hook : Bool) :
    ((AbstractWrite.send_post ictx w post_hook).update =
        some { object_no := w.object_no,
               new_state := OBJECT_NONEXISTENT,
               current_state := some OBJECT_PENDING } ↔
      (ictx.object_map_enabled = true ∧ post_hook = true ∧
        ictx.object_map w.object_no = OBJECT_PENDING)) ∧
    (ictx.object_map_enabled = true ∧ post_hook = true ∧
        ictx.object_map w.object_no = OBJECT_PENDING →
      (AbstractWrite.send_post ictx w post_hook).ret = false ∧
      (AbstractWrite.send_post ictx w post_hook).state =
        WriteState.WRITE_POST) ∧
    (¬ (ictx.object_map_enabled = true ∧ post_hook = true ∧
          ictx.object_map w.object_no = OBJECT_PENDING) →
      (AbstractWrite.send_post ictx w post_hook).ret = true ∧
      (AbstractWrite.send_post ictx w post_hook).update = none) := by
  by_cases he : ictx.object_map_enabled = true
  · by_cases hp : post_hook = true
    · by_cases hc : ictx.object_map w.object_no = OBJECT_PENDING
      · have hcn : ¬ ictx.object_map w.object_no = OBJECT_NONEXISTENT := by
          rw [hc]
          simp [OBJECT_PENDING, OBJECT_NONEXISTENT]
        simp [AbstractWrite.send_post, he, hp, hc, hcn,
              OBJECT_PENDING, OBJECT_NONEXISTENT]
      · simp [AbstractWrite.send_post, he, hp, hc]
    · have hp0 : post_hook = false := by
        cases post_hook
        · rfl
        · exact absurd rfl hp
      simp [AbstractWrite.send_post, hp0]
  · have he0 : ictx.object_map_enabled = false := by
      cases h0 : ictx.object_map_enabled
      · rfl
      · exact absurd h0 he
    simp [AbstractWrite.send_post, he0]

/-- Witness for C6: under `ctxA` the cell is `PENDING` and the post
hook requests a transition, so one `PENDING → NONEXISTENT` update is
issued. -/
theorem send_post_behaviour_witness :
    (AbstractWrite.send_post ctxA wA true).ret = false ∧
    (AbstractWrite.send_post ctxA wA true).state = WriteState.WRITE_POST :=
  (send_post_behaviour ctxA wA true).2.1 ⟨rfl, rfl, rfl⟩

/-- Claim C7: `send_copyup` builds a single operation in which an
`exec("rbd", "copyup", data)` step precedes the original write ops
exactly when the parent-read buffer is not all zeros (an empty or
all-zero buffer collapses the op to the write ops alone), issued against
the metadata pool with the write's snapshot context. -/
theorem send_copyup_exec_iff_nonzero (w : AbstractWrite)
    (writeOps : List OpStep)
    (hfree : ∀ s ∈ writeOps, s.isExec = false) :
    (AbstractWrite.send_copyup w writeOps).pool = IoCtxPool.metadataPool ∧
    (AbstractWrite.send_copyup w writeOps).snap_seq = w.snap_seq ∧
    (AbstractWrite.send_copyup w writeOps).snaps = w.snaps ∧
    (bufferIsZero w.read_data = false →
      (AbstractWrite.send_copyup w writeOps).steps =
        OpStep.exec "rbd" "copyup" w.read_data :: writeOps) ∧
    (bufferIsZero w.read_data = true →
      (AbstractWrite.send_copyup w writeOps).steps = writeOps) ∧
    ((∃ s ∈ (AbstractWrite.send_copyup w writeOps).steps,
        s.isExec = true) ↔ bufferIsZero w.read_data = false) := by
  refine ⟨rfl, rfl, rfl, ?_, ?_, ?_⟩
  · intro h
    simp [AbstractWrite.send_copyup, h]
  · intro h
    simp [AbstractWrite.send_copyup, h]
  · constructor
    · rintro ⟨s, hs, hex⟩
      by_contra hc
      have hz : bufferIsZero w.read_data = true := by
        cases hb : bufferIsZero w.read_data
        · exact absurd hb hc
        · rfl
      simp [AbstractWrite.send_copyup, hz] at hs
      rw [hfree s hs] at hex
      simp at hex
    · intro hz
      refine ⟨OpStep.exec "rbd" "copyup" w.read_data, ?_, rfl⟩
      simp [AbstractWrite.send_copyup, hz]

/-- Witness for C7: a write whose parent read returned byte 1 issues
`exec("rbd", "copyup", [1])` followed by its write op. -/
theorem send_copyup_exec_iff_nonzero_witness :
    (AbstractWrite.send_copyup { wA with read_data := [1] }
        [OpStep.write 0 [1]]).steps =
      OpStep.exec "rbd" "copyup" [1] :: [OpStep.write 0 [1]] :=
  (send_copyup_exec_iff_nonzero { wA with read_data := [1] }
      [OpStep.write 0 [1]] (by intro s hs; simp at hs; subst hs; rfl)).2.2.2.1
    (by decide)

/-- A key on which the copyup-list lookup fails does not occur among
the keys of the association list. -/
theorem lookupCopyup_none_not_mem (k : Nat) :
    ∀ l : List (Nat × CopyupRequest),
      lookupCopyup l k = none → k ∉ l.map Prod.fst := by
  intro l
  induction l with
  | nil =>
    intro _ hmem
    simp at hmem
  | cons p t ih =>
    intro h hmem
    by_cases hp : p.1 = k
    · simp [lookupCopyup, hp] at h
    · simp only [lookupCopyup, if_neg hp] at h
      simp only [List.map_cons, List.mem_cons] at hmem
      rcases hmem with h1 | h2
      · exact hp h1.symm
      · exact ih h h2

/-- Appending a waiter to the entry holding a given key leaves the key
list of the copyup association list unchanged. -/
theorem appendWaiter_keys (k wid : Nat) :
    ∀ l : List (Nat × CopyupRequest),
      ((l.map (fun p =>
          if p.1 = k then
            (p.1, { p.2 with waiters := p.2.waiters ++ [wid] })
          else p)).map Prod.fst) = l.map Prod.fst := by
  intro l
  induction l with
  | nil => rfl
  | cons p t ih =>
    by_cases hp : p.1 = k
    · simp [hp, ih]
    · simp [hp, ih]

/-- Claim C2: both copy-on-read paths — the `READ_COPYUP` critical
section of `AioRead::should_complete` and the `WRITE_GUARD` critical
section of `AbstractWrite::should_complete`, each one atomic step under
`copyup_list_lock` — insert a new `CopyupRequest` only when no entry for
the object number is present, and preserve the invariant that the
copyup list holds at most one entry per object number. -/
theorem copyup_list_at_most_one_per_object (ictx : ImageCtx)
    (req : AioRead) (wid object_no : Nat) (pruned : List Extent)
    (l : List (Nat × CopyupRequest))
    (hnd : (l.map Prod.fst).Nodup) :
    (((readCopyupSection ictx req l).copyupList.map Prod.fst).Nodup ∧
      ((readCopyupSection ictx req l).started ≠ [] →
        lookupCopyup l req.object_no = none)) ∧
    (((writeCopyupSection wid object_no pruned l).copyupList.map
        Prod.fst).Nodup ∧
      ((writeCopyupSection wid object_no pruned l).inserted = true →
        lookupCopyup l object_no = none)) := by
  constructor
  · cases hlk : lookupCopyup l req.object_no with
    | some c =>
      simp [readCopyupSection, hlk, hnd]
    | none =>
      by_cases hce :
          (computeParentExtents ictx req.snap_id req.parent_extents).2 = true
      · refine ⟨?_, fun _ => rfl⟩
        simp only [readCopyupSection, hlk, hce, if_true]
        simp only [List.map_cons, List.nodup_cons]
        exact ⟨lookupCopyup_none_not_mem req.object_no l hlk, hnd⟩
      · simp [readCopyupSection, hlk, hce, hnd]
  · cases hlk : lookupCopyup l object_no with
    | some c =>
      refine ⟨?_, ?_⟩
      · simp only [writeCopyupSection, hlk]
        rw [appendWaiter_keys]
        exact hnd
      · simp [writeCopyupSection, hlk]
    | none =>
      refine ⟨?_, fun _ => rfl⟩
      simp only [writeCopyupSection, hlk]
      simp only [List.map_cons, List.nodup_cons]
      exact ⟨lookupCopyup_none_not_mem object_no l hlk, hnd⟩

/-- Witness for C2: both sections run on an empty coordinator list and
keep its keys duplicate-free. -/
theorem copyup_list_at_most_one_per_object_witness :
    ((readCopyupSection ctxA reqA []).copyupList.map Prod.fst).Nodup ∧
    ((writeCopyupSection 1 0 [(0, 4096)] []).copyupList.map
      Prod.fst).Nodup := by
  have h := copyup_list_at_most_one_per_object ctxA reqA 1 0 [(0, 4096)] []
    (by simp)
  exact ⟨h.1.1, h.2.1⟩

/-- Claim C3: a guarded read completing with `-ENOENT` that has not yet
tried the parent, when the parent is attached and the recomputed overlap
for the actual sub-extent is positive, marks `tried_parent`, moves to
`READ_COPYUP` exactly when copy-on-read is enabled (staying in
`READ_GUARD` otherwise), issues one parent read with a blocked
completion, and reports not-finished. -/
theorem read_guard_enoent_overlap_reads_parent (ictx : ImageCtx)
    (req : AioRead) (l : List (Nat × CopyupRequest))
    (hstate : req.state = ReadState.READ_GUARD)
    (htried : req.tried_parent = false)
    (hparent : ictx.parent = true)
    (hov : 0 < (guardRecompute ictx req).2) :
    (AioRead.should_complete ictx req l (-ENOENT)).req.tried_parent =
      true ∧
    (AioRead.should_complete ictx req l (-ENOENT)).req.state =
      (if is_copy_on_read ictx req.snap_id then ReadState.READ_COPYUP
       else ReadState.READ_GUARD) ∧
    (AioRead.should_complete ictx req l (-ENOENT)).parentRead =
      some ((guardRecompute ictx req).1, true) ∧
    (AioRead.should_complete ictx req l (-ENOENT)).finished = false := by
  have hpne : ¬ ictx.parent = false := by simp [hparent]
  simp [AioRead.should_complete, hstate, htried, hpne, hov]

/-- Witness for C3: under `ctxA` the guarded read of object 0 marks
`tried_parent`, issues the blocked parent read, and is not finished. -/
theorem read_guard_enoent_overlap_reads_parent_witness :
    (AioRead.should_complete ctxA reqA [] (-ENOENT)).req.tried_parent =
      true ∧
    (AioRead.should_complete ctxA reqA [] (-ENOENT)).req.state =
      (if is_copy_on_read ctxA reqA.snap_id then ReadState.READ_COPYUP
       else ReadState.READ_GUARD) ∧
    (AioRead.should_complete ctxA reqA [] (-ENOENT)).parentRead =
      some ((guardRecompute ctxA reqA).1, true) ∧
    (AioRead.should_complete ctxA reqA [] (-ENOENT)).finished = false :=
  read_guard_enoent_overlap_reads_parent ctxA reqA [] rfl rfl rfl
    (by decide)

/-- Counterexample to C4 as stated: under `ctxC` the parent is attached
but the recomputed overlap is zero, and the guarded read neither moves
to `READ_FLAT` nor reports not-finished — the state stays `READ_GUARD`
and `should_complete` returns finished. -/
theorem read_guard_empty_overlap_counterexample :
    ¬ ((AioRead.should_complete ctxC reqA [] (-ENOENT)).req.state =
         ReadState.READ_FLAT ∧
       (AioRead.should_complete ctxC reqA [] (-ENOENT)).finished =
         false) := by
  decide

/-- Claim C4 as amended: on a guarded read's untried `-ENOENT`, no
parent read is issued in either degenerate case, but only the
parent-vanished case moves to `READ_FLAT` and returns not-finished;
with the parent attached and the recomputed overlap zero, the request
is unchanged and `should_complete` returns finished, so the `-ENOENT`
is surfaced. -/
theorem read_guard_parent_gone_or_no_overlap_amended (ictx : ImageCtx)
    (req : AioRead) (l : List (Nat × CopyupRequest))
    (hstate : req.state = ReadState.READ_GUARD)
    (htried : req.tried_parent = false) :
    (ictx.parent = false →
      (AioRead.should_complete ictx req l (-ENOENT)).req.state =
        ReadState.READ_FLAT ∧
      (AioRead.should_complete ictx req l (-ENOENT)).finished = false ∧
      (AioRead.should_complete ictx req l (-ENOENT)).parentRead = none) ∧
    (ictx.parent = true → (guardRecompute ictx req).2 = 0 →
      (AioRead.should_complete ictx req l (-ENOENT)).req = req ∧
      (AioRead.should_complete ictx req l (-ENOENT)).finished = true ∧
      (AioRead.should_complete ictx req l (-ENOENT)).parentRead =
        none) := by
  constructor
  · intro hp
    simp [AioRead.should_complete, hstate, htried, hp]
  · intro hp hov
    have hpne : ¬ ictx.parent = false := by simp [hp]
    simp [AioRead.should_complete, hstate, htried, hpne, hov]

/-- Witness for the amended C4: with the parent detached (`ctxB`) the
guarded read moves to `READ_FLAT`, is not finished, and issues no
parent read. -/
theorem read_guard_parent_gone_or_no_overlap_amended_witness :
    (AioRead.should_complete ctxB reqA [] (-ENOENT)).req.state =
      ReadState.READ_FLAT ∧
    (AioRead.should_complete ctxB reqA [] (-ENOENT)).finished = false ∧
    (AioRead.should_complete ctxB reqA [] (-ENOENT)).parentRead = none :=
  (read_guard_parent_gone_or_no_overlap_amended ctxB reqA [] rfl rfl).1 rfl

/-- Claim C8: a guarded write completing with `-ENOENT` whose
recomputed parent overlap is zero moves to `WRITE_FLAT`, calls
`send_copyup` with the (empty) read data so the issued operation is the
original write ops alone, and reports not-finished; on the subsequent
`WRITE_FLAT` entry the step finishes exactly per `send_post`, whereupon
the completion fires with that operation's result. -/
theorem write_guard_no_overlap_flat_copyup (ictx : ImageCtx)
    (w : AbstractWrite) (l : List (Nat × CopyupRequest))
    (writeOps : List OpStep) (post_hook : Bool) (shared : List Nat)
    (hstate : w.state = WriteState.WRITE_GUARD)
    (hov : (computeParentExtents ictx w.snap_id w.parent_extents).2 =
      false)
    (hrd : w.read_data = []) :
    (AbstractWrite.should_complete ictx w l writeOps post_hook shared
        (-ENOENT)).req.state = WriteState.WRITE_FLAT ∧
    (AbstractWrite.should_complete ictx w l writeOps post_hook shared
        (-ENOENT)).finished = false ∧
    (AbstractWrite.should_complete ictx w l writeOps post_hook shared
        (-ENOENT)).copyupOp =
      some { pool := IoCtxPool.metadataPool, steps := writeOps,
             snap_seq := w.snap_seq, snaps := w.snaps } ∧
    (AbstractWrite.should_complete ictx w l writeOps post_hook shared
        (-ENOENT)).parentRead = none ∧
    (∀ r' : Int, ∀ ph' : Bool,
      (AbstractWrite.should_complete ictx
        (AbstractWrite.should_complete ictx w l writeOps post_hook shared
          (-ENOENT)).req l writeOps ph' shared r').finished =
      (AbstractWrite.send_post ictx
        (AbstractWrite.should_complete ictx w l writeOps post_hook shared
          (-ENOENT)).req ph').ret) := by
  have hres : AbstractWrite.should_complete ictx w l writeOps post_hook
      shared (-ENOENT) =
      { req := { w with
          parent_extents :=
            (computeParentExtents ictx w.snap_id w.parent_extents).1,
          state := WriteState.WRITE_FLAT },
        finished := false, copyupList := l, started := [],
        copyupOp := some { pool := IoCtxPool.metadataPool,
                           steps := writeOps, snap_seq := w.snap_seq,
                           snaps := w.snaps },
        parentRead := none, sendWrite := false, completeCalled := none,
        postUpdate := none } := by
    simp [AbstractWrite.should_complete, hstate, writeGuardBranch, hov,
          AbstractWrite.send_copyup, bufferIsZero, hrd]
  rw [hres]
  refine ⟨rfl, rfl, rfl, rfl, ?_⟩
  intro r' ph'
  simp [AbstractWrite.should_complete, writeStepNoEffect]

/-- Witness for C8: under `ctxC` (overlap shrunk to zero) the guarded
write `wA` moves to `WRITE_FLAT`, is not finished, and its copyup op is
its write op alone. -/
theorem write_guard_no_overlap_flat_copyup_witness :
    (AbstractWrite.should_complete ctxC wA [] [OpStep.write 0 [1]] false
        [] (-ENOENT)).req.state = WriteState.WRITE_FLAT ∧
    (AbstractWrite.should_complete ctxC wA [] [OpStep.write 0 [1]] false
        [] (-ENOENT)).finished = false ∧
    (AbstractWrite.should_complete ctxC wA [] [OpStep.write 0 [1]] false
        [] (-ENOENT)).copyupOp =
      some { pool := IoCtxPool.metadataPool, steps := [OpStep.write 0 [1]],
             snap_seq := wA.snap_seq, snaps := wA.snaps } := by
  have h := write_guard_no_overlap_flat_copyup ctxC wA []
    [OpStep.write 0 [1]] false [] rfl (by decide) rfl
  exact ⟨h.1, h.2.1, h.2.2.1⟩
